import Mathlib

/-!
Shallow embedding of the FBR-invoice core of the repository
(`src/backend/app/api/routes/fbr_invoices.py` together with the model
classes of `src/backend/app/models.py`).

Modelling conventions:
* UUID values become `Nat` identifiers (`Id`). A Python `uuid.UUID`
  object is always truthy, so the `if invoice_in.customer_id:` /
  `if item_in.product_id:` guards in the source always take the truthy
  branch; the embedding therefore always runs the validation.
* Monetary values (Python `float` columns only ever summed and copied by
  this core) become `ℚ`; `float(x)` in the document builder is the
  identity on the stored value and is recorded by emitting a `Json.num`
  node.
* The SQL session becomes an explicit `DB` record of lists kept in
  persistence (insertion) order; `session.get` is `List.find?` on the
  id, an un-ordered `select ... where` is `List.filter`, and
  `session.add`/`commit` of an existing row is replacement by id.
* Each route handler becomes a pure function `DB → ... → Except
  HTTPException (DB × response)`; `raise HTTPException(...)` is an early
  `Except.error`, which produces no successor state — exactly as the
  source raises before any session mutation.
* `datetime`/`created_at` bookkeeping columns, which no modelled route
  reads, are omitted; `invoice_date` is kept as its ISO-8601 string
  (`isoformat` is the identity on this representation).
-/

namespace FBRSpec

abbrev Id := Nat

/-- Shape of `fastapi.HTTPException` as raised by the route handlers. -/
structure HTTPException where
  status_code : Nat
  detail : String
deriving DecidableEq, Repr

/-- Row of `Customer` (models.py): only the columns the FBR routes read. -/
structure Customer where
  id : Id
  owner_id : Id
deriving DecidableEq, Repr

/-- Row of `Company` (models.py): only the columns the FBR routes read. -/
structure Company where
  id : Id
  owner_id : Id
deriving DecidableEq, Repr

/-- Row of `Product` (models.py): only the columns the FBR routes read. -/
structure Product where
  id : Id
  owner_id : Id
deriving DecidableEq, Repr

/-- Row of `FBRInvoiceItem` (models.py, table model). -/
structure FBRInvoiceItem where
  id : Id
  invoice_id : Id
  product_id : Id
  hs_code : String
  product_description : String
  uom : String
  quantity : ℚ
  unit_price : ℚ
  value_sales_excluding_st : ℚ
  sales_tax_applicable : ℚ
  sales_tax_withheld_at_source : Option ℚ
  extra_tax : Option ℚ
  further_tax : Option ℚ
  fed_payable : Option ℚ
  fixed_notified_value : Option ℚ
  discount : Option ℚ
  sro_schedule_no : Option String
  sro_item_serial_no : Option String
  sale_type : String
  total_value : ℚ
deriving DecidableEq, Repr

/-- Row of `FBRInvoice` (models.py, table model). -/
structure FBRInvoice where
  id : Id
  owner_id : Id
  customer_id : Id
  company_id : Id
  invoice_ref_no : String
  invoice_date : String
  invoice_type : String
  scenario_id : Option String
  seller_ntn_cnic : String
  seller_business_name : String
  seller_province : String
  seller_address : String
  buyer_ntn_cnic : String
  buyer_business_name : String
  buyer_province : String
  buyer_address : String
  buyer_registration_type : String
  total_sales_value : ℚ
  total_tax_amount : ℚ
  total_invoice_value : ℚ
  status : String
  fbr_reference : Option String
  fbr_response : Option String
deriving DecidableEq, Repr

/-- The backing store: each table in persistence (insertion) order. -/
structure DB where
  invoices : List FBRInvoice
  items : List FBRInvoiceItem
  customers : List Customer
  companies : List Company
  products : List Product
deriving DecidableEq, Repr

/-- Model of `session.get(FBRInvoice, invoice_id)`: first row by key. -/
def DB.getInvoice (db : DB) (i : Id) : Option FBRInvoice :=
  db.invoices.find? (fun v => v.id == i)

/-- Model of `session.add`/`commit` of an already-persisted invoice row:
replacement by primary key. -/
def DB.setInvoice (db : DB) (inv : FBRInvoice) : DB :=
  { db with invoices := db.invoices.map (fun j => if j.id = inv.id then inv else j) }

/-- Model of `select(FBRInvoiceItem).where(FBRInvoiceItem.invoice_id == i)`,
which has no `order_by`: rows come back in persistence order. -/
def DB.itemsOf (db : DB) (i : Id) : List FBRInvoiceItem :=
  db.items.filter (fun it => it.invoice_id == i)

/-- Negation of `not customer or customer.owner_id != current_user.id`:
the referenced customer row exists and belongs to the acting user. -/
def customerValid (db : DB) (cid : Id) (u : Id) : Bool :=
  match db.customers.find? (fun c => c.id == cid) with
  | none => false
  | some c => c.owner_id == u

/-- Same referential check for `Company`. -/
def companyValid (db : DB) (cid : Id) (u : Id) : Bool :=
  match db.companies.find? (fun c => c.id == cid) with
  | none => false
  | some c => c.owner_id == u

/-- Same referential check for `Product`. -/
def productValid (db : DB) (pid : Id) (u : Id) : Bool :=
  match db.products.find? (fun p => p.id == pid) with
  | none => false
  | some p => p.owner_id == u

/-- Python `sum(...)`: left fold of `+` starting from `0`. -/
def pySum (l : List ℚ) : ℚ :=
  l.foldl (· + ·) 0

/-- The dict returned by `_recalculate_invoice_totals`. -/
structure Totals where
  total_sales_value : ℚ
  total_tax_amount : ℚ
  total_invoice_value : ℚ
deriving DecidableEq, Repr

/-- Model of `_recalculate_invoice_totals(session, invoice)`: re-query the
invoice's items, sum the three per-item fields, persist them on the
invoice row and return them. -/
def recalculateInvoiceTotals (db : DB) (invoice : FBRInvoice) : DB × Totals :=
  let items := db.itemsOf invoice.id
  let total_sales_value := pySum (items.map (·.value_sales_excluding_st))
  let total_tax_amount := pySum (items.map (·.sales_tax_applicable))
  let total_invoice_value := pySum (items.map (·.total_value))
  let invoice := { invoice with
    total_sales_value := total_sales_value,
    total_tax_amount := total_tax_amount,
    total_invoice_value := total_invoice_value }
  (db.setInvoice invoice,
   { total_sales_value := total_sales_value,
     total_tax_amount := total_tax_amount,
     total_invoice_value := total_invoice_value })

/-- Payload `FBRInvoiceCreate` (models.py): the base columns plus mandatory
customer/company references; no `status`, no totals-vs-items check. -/
structure FBRInvoiceCreate where
  invoice_ref_no : String
  invoice_date : String
  invoice_type : String
  scenario_id : Option String
  seller_ntn_cnic : String
  seller_business_name : String
  seller_province : String
  seller_address : String
  buyer_ntn_cnic : String
  buyer_business_name : String
  buyer_province : String
  buyer_address : String
  buyer_registration_type : String
  total_sales_value : ℚ
  total_tax_amount : ℚ
  total_invoice_value : ℚ
  customer_id : Id
  company_id : Id
deriving DecidableEq, Repr

/-- Payload `FBRInvoiceUpdate` (models.py): every column optional; `none` models
a field absent from the request (`model_dump(exclude_unset=True)` drops
it). There is no `status` and no `fbr_reference` field. -/
structure FBRInvoiceUpdate where
  invoice_ref_no : Option String := none
  invoice_date : Option String := none
  invoice_type : Option String := none
  scenario_id : Option String := none
  seller_ntn_cnic : Option String := none
  seller_business_name : Option String := none
  seller_province : Option String := none
  seller_address : Option String := none
  buyer_ntn_cnic : Option String := none
  buyer_business_name : Option String := none
  buyer_province : Option String := none
  buyer_address : Option String := none
  buyer_registration_type : Option String := none
  total_sales_value : Option ℚ := none
  total_tax_amount : Option ℚ := none
  total_invoice_value : Option ℚ := none
  customer_id : Option Id := none
  company_id : Option Id := none
deriving DecidableEq, Repr

/-- Model of `invoice.sqlmodel_update(update_dict)`: overwrite exactly the set
fields. `status`, `fbr_reference`, `fbr_response`, `id` and `owner_id`
are not in `FBRInvoiceUpdate` and cannot be written. -/
def FBRInvoice.sqlmodel_update (inv : FBRInvoice) (u : FBRInvoiceUpdate) : FBRInvoice :=
  { inv with
    invoice_ref_no := u.invoice_ref_no.getD inv.invoice_ref_no,
    invoice_date := u.invoice_date.getD inv.invoice_date,
    invoice_type := u.invoice_type.getD inv.invoice_type,
    scenario_id := match u.scenario_id with | some s => some s | none => inv.scenario_id,
    seller_ntn_cnic := u.seller_ntn_cnic.getD inv.seller_ntn_cnic,
    seller_business_name := u.seller_business_name.getD inv.seller_business_name,
    seller_province := u.seller_province.getD inv.seller_province,
    seller_address := u.seller_address.getD inv.seller_address,
    buyer_ntn_cnic := u.buyer_ntn_cnic.getD inv.buyer_ntn_cnic,
    buyer_business_name := u.buyer_business_name.getD inv.buyer_business_name,
    buyer_province := u.buyer_province.getD inv.buyer_province,
    buyer_address := u.buyer_address.getD inv.buyer_address,
    buyer_registration_type := u.buyer_registration_type.getD inv.buyer_registration_type,
    total_sales_value := u.total_sales_value.getD inv.total_sales_value,
    total_tax_amount := u.total_tax_amount.getD inv.total_tax_amount,
    total_invoice_value := u.total_invoice_value.getD inv.total_invoice_value,
    customer_id := u.customer_id.getD inv.customer_id,
    company_id := u.company_id.getD inv.company_id }

/-- Payload `FBRInvoiceItemCreate` (models.py): the item columns plus a
mandatory product reference; `invoice_id` comes from the path. -/
structure FBRInvoiceItemCreate where
  hs_code : String
  product_description : String
  uom : String
  quantity : ℚ
  unit_price : ℚ
  value_sales_excluding_st : ℚ
  sales_tax_applicable : ℚ
  sales_tax_withheld_at_source : Option ℚ := none
  extra_tax : Option ℚ := none
  further_tax : Option ℚ := none
  fed_payable : Option ℚ := none
  fixed_notified_value : Option ℚ := none
  discount : Option ℚ := none
  sro_schedule_no : Option String := none
  sro_item_serial_no : Option String := none
  sale_type : String := "standard"
  total_value : ℚ
  product_id : Id
deriving DecidableEq, Repr

/-- Model of `FBRInvoice.model_validate(invoice_in, update={"owner_id": ...})`:
the table row built from the payload, with defaulted `status = "draft"`,
empty FBR fields and the fresh `uuid4` key `new_id`. -/
def FBRInvoiceCreate.model_validate (invoice_in : FBRInvoiceCreate)
    (owner new_id : Id) : FBRInvoice :=
  { id := new_id,
    owner_id := owner,
    customer_id := invoice_in.customer_id,
    company_id := invoice_in.company_id,
    invoice_ref_no := invoice_in.invoice_ref_no,
    invoice_date := invoice_in.invoice_date,
    invoice_type := invoice_in.invoice_type,
    scenario_id := invoice_in.scenario_id,
    seller_ntn_cnic := invoice_in.seller_ntn_cnic,
    seller_business_name := invoice_in.seller_business_name,
    seller_province := invoice_in.seller_province,
    seller_address := invoice_in.seller_address,
    buyer_ntn_cnic := invoice_in.buyer_ntn_cnic,
    buyer_business_name := invoice_in.buyer_business_name,
    buyer_province := invoice_in.buyer_province,
    buyer_address := invoice_in.buyer_address,
    buyer_registration_type := invoice_in.buyer_registration_type,
    total_sales_value := invoice_in.total_sales_value,
    total_tax_amount := invoice_in.total_tax_amount,
    total_invoice_value := invoice_in.total_invoice_value,
    status := "draft",
    fbr_reference := none,
    fbr_response := none }

/-- Handler for `POST /` — `create_fbr_invoice`. `new_id` stands for the freshly
drawn `uuid4` primary key. Status defaults to `"draft"`. -/
def create_fbr_invoice (db : DB) (current_user : Id) (new_id : Id)
    (invoice_in : FBRInvoiceCreate) : Except HTTPException (DB × FBRInvoice) :=
  if ¬ customerValid db invoice_in.customer_id current_user then
    .error { status_code := 400, detail := "Invalid customer" }
  else if ¬ companyValid db invoice_in.company_id current_user then
    .error { status_code := 400, detail := "Invalid company" }
  else
    let invoice := invoice_in.model_validate current_user new_id
    .ok ({ db with invoices := db.invoices ++ [invoice] }, invoice)

/-- Handler for `PUT /{invoice_id}` — `update_fbr_invoice`. -/
def update_fbr_invoice (db : DB) (current_user : Id) (invoice_id : Id)
    (invoice_in : FBRInvoiceUpdate) : Except HTTPException (DB × FBRInvoice) :=
  match db.getInvoice invoice_id with
  | none => .error { status_code := 404, detail := "Invoice not found" }
  | some invoice =>
    if invoice.owner_id ≠ current_user then
      .error { status_code := 400, detail := "Not enough permissions" }
    else if invoice.status = "submitted" ∨ invoice.status = "posted" then
      .error { status_code := 400, detail := "Cannot update submitted or posted invoices" }
    else
      let invoice := invoice.sqlmodel_update invoice_in
      .ok (db.setInvoice invoice, invoice)

/-- Handler for `DELETE /{invoice_id}` — `delete_fbr_invoice`; the relationship is
declared `cascade_delete`, so the invoice's items go with it. -/
def delete_fbr_invoice (db : DB) (current_user : Id) (invoice_id : Id) :
    Except HTTPException (DB × String) :=
  match db.getInvoice invoice_id with
  | none => .error { status_code := 404, detail := "Invoice not found" }
  | some invoice =>
    if invoice.owner_id ≠ current_user then
      .error { status_code := 400, detail := "Not enough permissions" }
    else if invoice.status = "submitted" ∨ invoice.status = "posted" then
      .error { status_code := 400, detail := "Cannot delete submitted or posted invoices" }
    else
      .ok ({ db with
              invoices := db.invoices.filter (fun j => j.id != invoice_id),
              items := db.items.filter (fun it => it.invoice_id != invoice_id) },
           "Invoice deleted successfully")

/-- Model of `FBRInvoiceItem.model_validate(item_in, update={"invoice_id": ...})`:
the item row built from the payload, keyed by the fresh `uuid4`
`new_id` and attached to `invoice_id`. -/
def FBRInvoiceItemCreate.model_validate (item_in : FBRInvoiceItemCreate)
    (invoice_id new_id : Id) : FBRInvoiceItem :=
  { id := new_id,
    invoice_id := invoice_id,
    product_id := item_in.product_id,
    hs_code := item_in.hs_code,
    product_description := item_in.product_description,
    uom := item_in.uom,
    quantity := item_in.quantity,
    unit_price := item_in.unit_price,
    value_sales_excluding_st := item_in.value_sales_excluding_st,
    sales_tax_applicable := item_in.sales_tax_applicable,
    sales_tax_withheld_at_source := item_in.sales_tax_withheld_at_source,
    extra_tax := item_in.extra_tax,
    further_tax := item_in.further_tax,
    fed_payable := item_in.fed_payable,
    fixed_notified_value := item_in.fixed_notified_value,
    discount := item_in.discount,
    sro_schedule_no := item_in.sro_schedule_no,
    sro_item_serial_no := item_in.sro_item_serial_no,
    sale_type := item_in.sale_type,
    total_value := item_in.total_value }

/-- Handler for `POST /{invoice_id}/items` — `add_invoice_item`. `new_item_id`
stands for the freshly drawn `uuid4` key; after inserting, the handler
calls `_recalculate_invoice_totals`. -/
def add_invoice_item (db : DB) (current_user : Id) (invoice_id : Id) (new_item_id : Id)
    (item_in : FBRInvoiceItemCreate) : Except HTTPException (DB × Id) :=
  match db.getInvoice invoice_id with
  | none => .error { status_code := 404, detail := "Invoice not found" }
  | some invoice =>
    if invoice.owner_id ≠ current_user then
      .error { status_code := 400, detail := "Not enough permissions" }
    else if invoice.status = "submitted" ∨ invoice.status = "posted" then
      .error { status_code := 400, detail := "Cannot modify submitted or posted invoices" }
    else if ¬ productValid db item_in.product_id current_user then
      .error { status_code := 400, detail := "Invalid product" }
    else
      let item := item_in.model_validate invoice_id new_item_id
      let db := { db with items := db.items ++ [item] }
      let r := recalculateInvoiceTotals db invoice
      .ok (r.1, new_item_id)

/-- Handler for `POST /{invoice_id}/calculate-totals` — `calculate_invoice_totals`.
No status guard: any owned invoice is recomputed. -/
def calculate_invoice_totals (db : DB) (current_user : Id) (invoice_id : Id) :
    Except HTTPException (DB × Totals) :=
  match db.getInvoice invoice_id with
  | none => .error { status_code := 404, detail := "Invoice not found" }
  | some invoice =>
    if invoice.owner_id ≠ current_user then
      .error { status_code := 400, detail := "Not enough permissions" }
    else
      .ok (recalculateInvoiceTotals db invoice)

/-- The dict returned by `submit_to_fbr`. -/
structure SubmitResponse where
  message : String
  fbr_reference : String
  status : String
deriving DecidableEq, Repr

/-- Handler for `POST /{invoice_id}/submit-to-fbr` — `submit_to_fbr`: only a
`"draft"` invoice may pass; on success the row gets
`status = "submitted"` and `fbr_reference = "FBR-" ++ invoice_ref_no`. -/
def submit_to_fbr (db : DB) (current_user : Id) (invoice_id : Id) :
    Except HTTPException (DB × SubmitResponse) :=
  match db.getInvoice invoice_id with
  | none => .error { status_code := 404, detail := "Invoice not found" }
  | some invoice =>
    if invoice.owner_id ≠ current_user then
      .error { status_code := 400, detail := "Not enough permissions" }
    else if invoice.status ≠ "draft" then
      .error { status_code := 400, detail := "Only draft invoices can be submitted" }
    else
      let fbr_reference := "FBR-" ++ invoice.invoice_ref_no
      let invoice := { invoice with
        status := "submitted",
        fbr_reference := some fbr_reference }
      .ok (db.setInvoice invoice,
           { message := "Invoice submitted to FBR successfully",
             fbr_reference := fbr_reference,
             status := invoice.status })

/-- The JSON documents built by `get_fbr_json`. A `num` node records
that the handler emitted `float(...)` of the stored value (`float` is
the identity on the rational model of the stored number). -/
inductive Json where
  | null : Json
  | str : String → Json
  | num : ℚ → Json
  | arr : List Json → Json
  | obj : List (String × Json) → Json
deriving Repr

/-- Serialization of an `Optional[str]` column into JSON. -/
def jsonOfOptStr : Option String → Json
  | none => Json.null
  | some s => Json.str s

/-- The keys of a JSON object, in emission order. -/
def Json.keys : Json → Option (List String)
  | Json.obj kvs => some (kvs.map Prod.fst)
  | _ => none

/-- Value of a key in a JSON object (first occurrence). -/
def Json.lookupKey (j : Json) (k : String) : Option Json :=
  match j with
  | Json.obj kvs => (kvs.find? (fun kv => kv.1 == k)).map (·.2)
  | _ => none

/-- One element of the `"Items"` array of `get_fbr_json`: the literal
per-item dict, with `float(x or 0)` on the optional numeric columns
rendered as `Json.num (x.getD 0)` (Python `or` also sends a stored `0`
to `0`, so the two agree on the rational model). -/
def itemToFbrJson (item : FBRInvoiceItem) : Json :=
  Json.obj [
    ("HSCode", Json.str item.hs_code),
    ("ProductDescription", Json.str item.product_description),
    ("UOM", Json.str item.uom),
    ("Quantity", Json.num item.quantity),
    ("UnitPrice", Json.num item.unit_price),
    ("ValueSalesExcludingST", Json.num item.value_sales_excluding_st),
    ("SalesTaxApplicable", Json.num item.sales_tax_applicable),
    ("SalesTaxWithheldAtSource", Json.num (item.sales_tax_withheld_at_source.getD 0)),
    ("ExtraTax", Json.num (item.extra_tax.getD 0)),
    ("FurtherTax", Json.num (item.further_tax.getD 0)),
    ("FEDPayable", Json.num (item.fed_payable.getD 0)),
    ("FixedNotifiedValue", Json.num (item.fixed_notified_value.getD 0)),
    ("Discount", Json.num (item.discount.getD 0)),
    ("SROScheduleNo", jsonOfOptStr item.sro_schedule_no),
    ("SROItemSerialNo", jsonOfOptStr item.sro_item_serial_no),
    ("SaleType", Json.str item.sale_type),
    ("TotalValue", Json.num item.total_value)
  ]

/-- Handler for `GET /{invoice_id}/fbr-json` — `get_fbr_json`: read-only; queries
the invoice's items (no reordering) and builds the compliance dict.
`invoice.invoice_date.isoformat()` is the identity on the stored
ISO-8601 string. -/
def get_fbr_json (db : DB) (current_user : Id) (invoice_id : Id) :
    Except HTTPException Json :=
  match db.getInvoice invoice_id with
  | none => .error { status_code := 404, detail := "Invoice not found" }
  | some invoice =>
    if invoice.owner_id ≠ current_user then
      .error { status_code := 400, detail := "Not enough permissions" }
    else
      let items := db.itemsOf invoice_id
      .ok (Json.obj [
        ("InvoiceRefNo", Json.str invoice.invoice_ref_no),
        ("InvoiceDate", Json.str invoice.invoice_date),
        ("InvoiceType", Json.str invoice.invoice_type),
        ("ScenarioId", jsonOfOptStr invoice.scenario_id),
        ("SellerNTNCNIC", Json.str invoice.seller_ntn_cnic),
        ("SellerBusinessName", Json.str invoice.seller_business_name),
        ("SellerProvince", Json.str invoice.seller_province),
        ("SellerAddress", Json.str invoice.seller_address),
        ("BuyerNTNCNIC", Json.str invoice.buyer_ntn_cnic),
        ("BuyerBusinessName", Json.str invoice.buyer_business_name),
        ("BuyerProvince", Json.str invoice.buyer_province),
        ("BuyerAddress", Json.str invoice.buyer_address),
        ("BuyerRegistrationType", Json.str invoice.buyer_registration_type),
        ("TotalSalesValue", Json.num invoice.total_sales_value),
        ("TotalTaxAmount", Json.num invoice.total_tax_amount),
        ("TotalInvoiceValue", Json.num invoice.total_invoice_value),
        ("Items", Json.arr (items.map itemToFbrJson))
      ])

/-- The external schema's top-level field names (spec §6), in the order
the handler emits them. -/
def fbrInvoiceKeys : List String :=
  ["InvoiceRefNo", "InvoiceDate", "InvoiceType", "ScenarioId",
   "SellerNTNCNIC", "SellerBusinessName", "SellerProvince", "SellerAddress",
   "BuyerNTNCNIC", "BuyerBusinessName", "BuyerProvince", "BuyerAddress",
   "BuyerRegistrationType",
   "TotalSalesValue", "TotalTaxAmount", "TotalInvoiceValue", "Items"]

/-- The external schema's per-item field names (spec §6). -/
def fbrItemKeys : List String :=
  ["HSCode", "ProductDescription", "UOM", "Quantity", "UnitPrice",
   "ValueSalesExcludingST", "SalesTaxApplicable",
   "SalesTaxWithheldAtSource", "ExtraTax", "FurtherTax", "FEDPayable",
   "FixedNotifiedValue", "Discount", "SROScheduleNo", "SROItemSerialNo",
   "SaleType", "TotalValue"]

/-- The numeric per-item fields of the schema. -/
def fbrItemNumericKeys : List String :=
  ["Quantity", "UnitPrice", "ValueSalesExcludingST", "SalesTaxApplicable",
   "SalesTaxWithheldAtSource", "ExtraTax", "FurtherTax", "FEDPayable",
   "FixedNotifiedValue", "Discount", "TotalValue"]

/-- The spec's Σ-equalities for one invoice against the items the store
currently holds for it. -/
def invoiceTotalsOk (db : DB) (inv : FBRInvoice) : Prop :=
  inv.total_sales_value = ((db.itemsOf inv.id).map (·.value_sales_excluding_st)).sum ∧
  inv.total_tax_amount = ((db.itemsOf inv.id).map (·.sales_tax_applicable)).sum ∧
  inv.total_invoice_value = ((db.itemsOf inv.id).map (·.total_value)).sum

/-- The Σ-equalities as a whole-store invariant (spec §3 invariant set). -/
def TotalsInvariant (db : DB) : Prop :=
  ∀ inv ∈ db.invoices, invoiceTotalsOk db inv

/-- One successful invocation of any mutating public operation of the
core (`create`, `update`, `delete`, `add item`, `calculate-totals`,
`submit-to-fbr`); fresh `uuid4` keys appear as the existentially chosen
`new_id`. -/
inductive Step (db : DB) : DB → Prop where
  | create {u new_id : Id} {inp : FBRInvoiceCreate} {db' : DB} {inv : FBRInvoice} :
      create_fbr_invoice db u new_id inp = Except.ok (db', inv) → Step db db'
  | update {u iid : Id} {inp : FBRInvoiceUpdate} {db' : DB} {inv : FBRInvoice} :
      update_fbr_invoice db u iid inp = Except.ok (db', inv) → Step db db'
  | del {u iid : Id} {db' : DB} {m : String} :
      delete_fbr_invoice db u iid = Except.ok (db', m) → Step db db'
  | addItem {u iid nid : Id} {inp : FBRInvoiceItemCreate} {db' : DB} {r : Id} :
      add_invoice_item db u iid nid inp = Except.ok (db', r) → Step db db'
  | calcTotals {u iid : Id} {db' : DB} {t : Totals} :
      calculate_invoice_totals db u iid = Except.ok (db', t) → Step db db'
  | submit {u iid : Id} {db' : DB} {r : SubmitResponse} :
      submit_to_fbr db u iid = Except.ok (db', r) → Step db db'

/-- Zero or more public operations. -/
def Reachable : DB → DB → Prop :=
  Relation.ReflTransGen Step

/-- Concrete fixtures for witnesses (the end-to-end scenario of
spec §8: unit price 100, quantity 2, 17 % sales tax). -/
def exItem : FBRInvoiceItem :=
  { id := 20, invoice_id := 5, product_id := 3,
    hs_code := "0101.2100", product_description := "Goods", uom := "PCS",
    quantity := 2, unit_price := 100,
    value_sales_excluding_st := 200, sales_tax_applicable := 34,
    sales_tax_withheld_at_source := none, extra_tax := none,
    further_tax := none, fed_payable := none,
    fixed_notified_value := none, discount := none,
    sro_schedule_no := none, sro_item_serial_no := none,
    sale_type := "standard", total_value := 234 }

/-- A draft invoice whose stored totals agree with its one item. -/
def exInvoiceDraft : FBRInvoice :=
  { id := 5, owner_id := 7, customer_id := 1, company_id := 2,
    invoice_ref_no := "INV-1", invoice_date := "2025-01-01",
    invoice_type := "Sale Invoice", scenario_id := none,
    seller_ntn_cnic := "1234567", seller_business_name := "Seller",
    seller_province := "Punjab", seller_address := "Addr S",
    buyer_ntn_cnic := "7654321", buyer_business_name := "Buyer",
    buyer_province := "Sindh", buyer_address := "Addr B",
    buyer_registration_type := "Registered",
    total_sales_value := 200, total_tax_amount := 34,
    total_invoice_value := 234,
    status := "draft", fbr_reference := none, fbr_response := none }

/-- The same invoice after `submit-to-fbr`. -/
def exInvoiceSubmitted : FBRInvoice :=
  { exInvoiceDraft with
    status := "submitted",
    fbr_reference := some "FBR-INV-1" }

/-- A store holding the draft invoice, its item and its references. -/
def exDB : DB :=
  { invoices := [exInvoiceDraft], items := [exItem],
    customers := [{ id := 1, owner_id := 7 }],
    companies := [{ id := 2, owner_id := 7 }],
    products := [{ id := 3, owner_id := 7 }] }

/-- The same store with the invoice already submitted. -/
def exDBsub : DB :=
  { exDB with invoices := [exInvoiceSubmitted] }

/-- The same store with the item table empty. -/
def exDBempty : DB :=
  { exDB with items := [] }

/-- An item-creation payload matching `exItem`. -/
def exItemIn : FBRInvoiceItemCreate :=
  { hs_code := "0101.2100", product_description := "Goods", uom := "PCS",
    quantity := 2, unit_price := 100, value_sales_excluding_st := 200,
    sales_tax_applicable := 34, total_value := 234, product_id := 3 }

/-- Python `sum` (a left fold) agrees with the mathematical list sum. -/
theorem foldl_add_acc (l : List ℚ) : ∀ a : ℚ, l.foldl (· + ·) a = a + l.sum := by
  induction l with
  | nil => intro a; simp
  | cons x t ih => intro a; simp only [List.foldl_cons, List.sum_cons, ih]; ring

theorem pySum_eq_sum (l : List ℚ) : pySum l = l.sum := by
  simp [pySum, foldl_add_acc]

/-- A fetched row carries the key it was fetched by. -/
theorem DB.getInvoice_id {db : DB} {i : Id} {inv : FBRInvoice}
    (h : db.getInvoice i = some inv) : inv.id = i := by
  have hp := List.find?_some h
  simpa using hp

/-- Replacing the row keyed `a.id` does not disturb a lookup by a
different key. -/
theorem find?_map_replace_ne (l : List FBRInvoice) (a : FBRInvoice) (i : Id)
    (ha : a.id ≠ i) :
    (l.map (fun j => if j.id = a.id then a else j)).find? (fun v => v.id == i) =
      l.find? (fun v => v.id == i) := by
  induction l with
  | nil => rfl
  | cons x t ih =>
    by_cases hx : x.id = a.id
    · have hpa : (a.id == i) = false := by simpa using ha
      have hpx : (x.id == i) = false := by simp [hx]; exact ha
      simp [List.find?_cons, hx, hpa, hpx, ih]
    · simp only [List.map_cons, if_neg hx, List.find?_cons]
      cases hpx : (x.id == i) <;> simp [ih]

/-- Replacing the row keyed `a.id = i` rewrites the result of a lookup
by `i` (and only succeeds when the lookup already succeeded). -/
theorem find?_map_replace_self (l : List FBRInvoice) (a : FBRInvoice) (i : Id)
    (ha : a.id = i) :
    (l.map (fun j => if j.id = a.id then a else j)).find? (fun v => v.id == i) =
      (l.find? (fun v => v.id == i)).map (fun _ => a) := by
  induction l with
  | nil => rfl
  | cons x t ih =>
    by_cases hx : x.id = a.id
    · have hpa : (a.id == i) = true := by simpa using ha
      have hpx : (x.id == i) = true := by simp [hx, ha]
      simp [List.find?_cons, hx, hpa, hpx]
    · have hpx : (x.id == i) = false := by
        simp only [beq_eq_false_iff_ne, ne_eq]
        intro hxi; exact hx (hxi.trans ha.symm)
      simp [List.find?_cons, hx, hpx, ih]

theorem DB.getInvoice_setInvoice_ne (db : DB) (a : FBRInvoice) (i : Id)
    (ha : a.id ≠ i) : (db.setInvoice a).getInvoice i = db.getInvoice i :=
  find?_map_replace_ne db.invoices a i ha

theorem DB.getInvoice_setInvoice_self (db : DB) (a : FBRInvoice) (i : Id)
    (ha : a.id = i) :
    (db.setInvoice a).getInvoice i = (db.getInvoice i).map (fun _ => a) :=
  find?_map_replace_self db.invoices a i ha

/-- Writing the same row twice is the same as writing it once. -/
theorem DB.setInvoice_setInvoice (db : DB) (a : FBRInvoice) :
    (db.setInvoice a).setInvoice a = db.setInvoice a := by
  unfold DB.setInvoice
  simp only [List.map_map]
  congr 1
  apply List.map_congr_left
  intro j _
  by_cases h : j.id = a.id <;> simp [h]

/-- Replacing an invoice row leaves the item table alone. -/
theorem DB.itemsOf_setInvoice (db : DB) (a : FBRInvoice) (i : Id) :
    (db.setInvoice a).itemsOf i = db.itemsOf i := rfl

/-- Deleting rows of another key does not disturb a lookup. -/
theorem find?_filter_ne (l : List FBRInvoice) (tid i : Id) (h : i ≠ tid) :
    (l.filter (fun j => j.id != tid)).find? (fun v => v.id == i) =
      l.find? (fun v => v.id == i) := by
  induction l with
  | nil => rfl
  | cons x t ih =>
    by_cases hxt : x.id = tid
    · have hpx : (x.id == i) = false := by
        rw [hxt]; exact beq_eq_false_iff_ne.mpr (Ne.symm h)
      have hkeep : (x.id != tid) = false := by simp [hxt]
      rw [List.filter_cons, hkeep]
      simp only [Bool.false_eq_true, if_false]
      simp [List.find?_cons, hpx, ih]
    · have hkeep : (x.id != tid) = true := by simp [hxt]
      rw [List.filter_cons, hkeep]
      simp only [if_true]
      cases hpx : (x.id == i) with
      | true => simp [List.find?_cons, hpx]
      | false => simp [List.find?_cons, hpx, ih]

/-- A successful lookup survives appending rows. -/
theorem find?_append_of_some (l₁ l₂ : List FBRInvoice)
    (p : FBRInvoice → Bool) (a : FBRInvoice) (h : l₁.find? p = some a) :
    (l₁ ++ l₂).find? p = some a := by
  induction l₁ with
  | nil => simp [List.find?] at h
  | cons x t ih =>
    cases hpx : p x with
    | true => simp_all [List.find?_cons]
    | false => simp_all [List.find?_cons]


/-- A creation payload whose caller-supplied totals cannot match its
(necessarily empty) item set. -/
def exCreateUnbalanced : FBRInvoiceCreate :=
  { invoice_ref_no := "INV-2", invoice_date := "2025-01-02",
    invoice_type := "Sale Invoice", scenario_id := none,
    seller_ntn_cnic := "1234567", seller_business_name := "Seller",
    seller_province := "Punjab", seller_address := "Addr S",
    buyer_ntn_cnic := "7654321", buyer_business_name := "Buyer",
    buyer_province := "Sindh", buyer_address := "Addr B",
    buyer_registration_type := "Registered",
    total_sales_value := 100, total_tax_amount := 17,
    total_invoice_value := 117, customer_id := 1, company_id := 2 }

/-- A store holding only the referenced customer and company. -/
def exDBpre : DB :=
  { invoices := [], items := [],
    customers := [{ id := 1, owner_id := 7 }],
    companies := [{ id := 2, owner_id := 7 }],
    products := [] }

/-- The row `create_fbr_invoice` builds from `exCreateUnbalanced`. -/
def exInvUnbalanced : FBRInvoice := exCreateUnbalanced.model_validate 7 10

/-- The store after the unbalanced create. -/
def exDBpost : DB := { exDBpre with invoices := [exInvUnbalanced] }

/-- A creation payload referencing a customer id that does not exist. -/
def exCreateBad : FBRInvoiceCreate :=
  { exCreateUnbalanced with customer_id := 99 }

/-- The compliance document `get_fbr_json` emits for `exDB`. -/
def exJson5 : Json :=
  Json.obj [
    ("InvoiceRefNo", Json.str "INV-1"),
    ("InvoiceDate", Json.str "2025-01-01"),
    ("InvoiceType", Json.str "Sale Invoice"),
    ("ScenarioId", Json.null),
    ("SellerNTNCNIC", Json.str "1234567"),
    ("SellerBusinessName", Json.str "Seller"),
    ("SellerProvince", Json.str "Punjab"),
    ("SellerAddress", Json.str "Addr S"),
    ("BuyerNTNCNIC", Json.str "7654321"),
    ("BuyerBusinessName", Json.str "Buyer"),
    ("BuyerProvince", Json.str "Sindh"),
    ("BuyerAddress", Json.str "Addr B"),
    ("BuyerRegistrationType", Json.str "Registered"),
    ("TotalSalesValue", Json.num 200),
    ("TotalTaxAmount", Json.num 34),
    ("TotalInvoiceValue", Json.num 234),
    ("Items", Json.arr [Json.obj [
      ("HSCode", Json.str "0101.2100"),
      ("ProductDescription", Json.str "Goods"),
      ("UOM", Json.str "PCS"),
      ("Quantity", Json.num 2),
      ("UnitPrice", Json.num 100),
      ("ValueSalesExcludingST", Json.num 200),
      ("SalesTaxApplicable", Json.num 34),
      ("SalesTaxWithheldAtSource", Json.num 0),
      ("ExtraTax", Json.num 0),
      ("FurtherTax", Json.num 0),
      ("FEDPayable", Json.num 0),
      ("FixedNotifiedValue", Json.num 0),
      ("Discount", Json.num 0),
      ("SROScheduleNo", Json.null),
      ("SROItemSerialNo", Json.null),
      ("SaleType", Json.str "standard"),
      ("TotalValue", Json.num 234)]])]

/-- Updating a row never touches its key. -/
theorem sqlmodel_update_id (inv : FBRInvoice) (u : FBRInvoiceUpdate) :
    (inv.sqlmodel_update u).id = inv.id := rfl

/-- Updating a row never touches its status (there is no such payload
field). -/
theorem sqlmodel_update_status (inv : FBRInvoice) (u : FBRInvoiceUpdate) :
    (inv.sqlmodel_update u).status = inv.status := rfl

/-- Inversion of a successful `create_fbr_invoice`. -/
theorem create_fbr_invoice_ok_inv {db : DB} {u nid : Id} {inp : FBRInvoiceCreate}
    {db' : DB} {inv : FBRInvoice}
    (h : create_fbr_invoice db u nid inp = Except.ok (db', inv)) :
    customerValid db inp.customer_id u = true ∧
    companyValid db inp.company_id u = true ∧
    inv = inp.model_validate u nid ∧
    db' = { db with invoices := db.invoices ++ [inp.model_validate u nid] } := by
  unfold create_fbr_invoice at h
  split at h
  · exact Except.noConfusion h
  · split at h
    · exact Except.noConfusion h
    · rename_i hc hco
      injection h with h
      rw [Prod.mk.injEq] at h
      exact ⟨Bool.of_not_eq_false (by simpa using hc),
             Bool.of_not_eq_false (by simpa using hco),
             h.2.symm, h.1.symm⟩

/-- Inversion of a successful `update_fbr_invoice`. -/
theorem update_fbr_invoice_ok_inv {db : DB} {u iid : Id} {inp : FBRInvoiceUpdate}
    {db' : DB} {r : FBRInvoice}
    (h : update_fbr_invoice db u iid inp = Except.ok (db', r)) :
    ∃ inv, db.getInvoice iid = some inv ∧ inv.owner_id = u ∧
      ¬(inv.status = "submitted" ∨ inv.status = "posted") ∧
      r = inv.sqlmodel_update inp ∧
      db' = db.setInvoice (inv.sqlmodel_update inp) := by
  unfold update_fbr_invoice at h
  split at h
  · exact Except.noConfusion h
  · rename_i inv hg
    split at h
    · exact Except.noConfusion h
    · split at h
      · exact Except.noConfusion h
      · rename_i ho hs
        injection h with h
        rw [Prod.mk.injEq] at h
        exact ⟨inv, hg, not_not.mp ho, hs, h.2.symm, h.1.symm⟩

/-- Inversion of a successful `delete_fbr_invoice`. -/
theorem delete_fbr_invoice_ok_inv {db : DB} {u iid : Id} {db' : DB} {m : String}
    (h : delete_fbr_invoice db u iid = Except.ok (db', m)) :
    ∃ inv, db.getInvoice iid = some inv ∧ inv.owner_id = u ∧
      ¬(inv.status = "submitted" ∨ inv.status = "posted") ∧
      db' = { db with
        invoices := db.invoices.filter (fun j => j.id != iid),
        items := db.items.filter (fun it => it.invoice_id != iid) } := by
  unfold delete_fbr_invoice at h
  split at h
  · exact Except.noConfusion h
  · rename_i inv hg
    split at h
    · exact Except.noConfusion h
    · split at h
      · exact Except.noConfusion h
      · rename_i ho hs
        injection h with h
        rw [Prod.mk.injEq] at h
        exact ⟨inv, hg, not_not.mp ho, hs, h.1.symm⟩

/-- Inversion of a successful `add_invoice_item`. -/
theorem add_invoice_item_ok_inv {db : DB} {u iid nid : Id}
    {item_in : FBRInvoiceItemCreate} {db' : DB} {r : Id}
    (h : add_invoice_item db u iid nid item_in = Except.ok (db', r)) :
    ∃ inv, db.getInvoice iid = some inv ∧ inv.owner_id = u ∧
      ¬(inv.status = "submitted" ∨ inv.status = "posted") ∧
      productValid db item_in.product_id u = true ∧
      r = nid ∧
      db' = (recalculateInvoiceTotals
        { db with items := db.items ++ [item_in.model_validate iid nid] } inv).1 := by
  unfold add_invoice_item at h
  split at h
  · exact Except.noConfusion h
  · rename_i inv hg
    split at h
    · exact Except.noConfusion h
    · split at h
      · exact Except.noConfusion h
      · split at h
        · exact Except.noConfusion h
        · rename_i ho hs hp
          injection h with h
          rw [Prod.mk.injEq] at h
          exact ⟨inv, hg, not_not.mp ho, hs,
                 Bool.of_not_eq_false (by simpa using hp),
                 h.2.symm, h.1.symm⟩

/-- Inversion of a successful `calculate_invoice_totals`. -/
theorem calculate_invoice_totals_ok_inv {db : DB} {u iid : Id} {db' : DB} {t : Totals}
    (h : calculate_invoice_totals db u iid = Except.ok (db', t)) :
    ∃ inv, db.getInvoice iid = some inv ∧ inv.owner_id = u ∧
      recalculateInvoiceTotals db inv = (db', t) := by
  unfold calculate_invoice_totals at h
  split at h
  · exact Except.noConfusion h
  · rename_i inv hg
    split at h
    · exact Except.noConfusion h
    · rename_i ho
      injection h with h
      exact ⟨inv, hg, not_not.mp ho, h⟩

/-- Inversion of a successful `submit_to_fbr`. -/
theorem submit_to_fbr_ok_inv {db : DB} {u iid : Id} {db' : DB} {r : SubmitResponse}
    (h : submit_to_fbr db u iid = Except.ok (db', r)) :
    ∃ inv, db.getInvoice iid = some inv ∧ inv.owner_id = u ∧
      inv.status = "draft" ∧
      db' = db.setInvoice { inv with
        status := "submitted",
        fbr_reference := some ("FBR-" ++ inv.invoice_ref_no) } := by
  unfold submit_to_fbr at h
  split at h
  · exact Except.noConfusion h
  · rename_i inv hg
    split at h
    · exact Except.noConfusion h
    · split at h
      · exact Except.noConfusion h
      · rename_i ho hs
        injection h with h
        rw [Prod.mk.injEq] at h
        exact ⟨inv, hg, not_not.mp ho, not_not.mp hs, h.1.symm⟩

/-- After a recompute, the row stored under the invoice's key satisfies
the Σ-equalities against the (unchanged) item table. -/
theorem recalc_establishes (db : DB) (invoice inv' : FBRInvoice)
    (h : ((recalculateInvoiceTotals db invoice).1).getInvoice invoice.id = some inv') :
    invoiceTotalsOk (recalculateInvoiceTotals db invoice).1 inv' := by
  simp only [recalculateInvoiceTotals] at h ⊢
  rw [DB.getInvoice_setInvoice_self _ _ _ rfl] at h
  cases hg : db.getInvoice invoice.id with
  | none => rw [hg] at h; cases h
  | some x =>
    rw [hg] at h
    simp only [Option.map_some'] at h
    injection h with h
    subst h
    refine ⟨?_, ?_, ?_⟩ <;>
      simp [invoiceTotalsOk, DB.itemsOf_setInvoice, pySum_eq_sum]

/-- C1: for every invoice and every (possibly empty) item set,
`_recalculate_invoice_totals` returns and persists
`total_sales_value = Σ value_sales_excluding_st`,
`total_tax_amount = Σ sales_tax_applicable` and
`total_invoice_value = Σ total_value` over the invoice's items; with
zero items all three totals are `0`. -/
theorem C1_recalculate_totals_sums (db : DB) (invoice : FBRInvoice) :
    (recalculateInvoiceTotals db invoice).2.total_sales_value =
      ((db.itemsOf invoice.id).map (·.value_sales_excluding_st)).sum ∧
    (recalculateInvoiceTotals db invoice).2.total_tax_amount =
      ((db.itemsOf invoice.id).map (·.sales_tax_applicable)).sum ∧
    (recalculateInvoiceTotals db invoice).2.total_invoice_value =
      ((db.itemsOf invoice.id).map (·.total_value)).sum ∧
    (recalculateInvoiceTotals db invoice).1 =
      db.setInvoice { invoice with
        total_sales_value := ((db.itemsOf invoice.id).map (·.value_sales_excluding_st)).sum,
        total_tax_amount := ((db.itemsOf invoice.id).map (·.sales_tax_applicable)).sum,
        total_invoice_value := ((db.itemsOf invoice.id).map (·.total_value)).sum } ∧
    (db.itemsOf invoice.id = [] →
      (recalculateInvoiceTotals db invoice).2 = ⟨0, 0, 0⟩) := by
  refine ⟨?_, ?_, ?_, ?_, ?_⟩
  · simp [recalculateInvoiceTotals, pySum_eq_sum]
  · simp [recalculateInvoiceTotals, pySum_eq_sum]
  · simp [recalculateInvoiceTotals, pySum_eq_sum]
  · simp [recalculateInvoiceTotals, pySum_eq_sum]
  · intro hempty
    simp [recalculateInvoiceTotals, hempty, pySum]

/-- C1 witness: on a store whose item table is empty the recompute
returns all-zero totals. -/
theorem C1_recalculate_totals_sums_witness :
    exDBempty.itemsOf 5 = [] ∧
    (recalculateInvoiceTotals exDBempty exInvoiceDraft).2 = ⟨0, 0, 0⟩ :=
  ⟨rfl, (C1_recalculate_totals_sums exDBempty exInvoiceDraft).2.2.2.2 rfl⟩

/-- C8: the recompute is idempotent — run once from `db` yielding
`(db₁, t₁)`, a second run on the refreshed row returns and persists
exactly the same store and totals. -/
theorem C8_recalc_idempotent (db : DB) (invoice : FBRInvoice) (db₁ : DB) (t₁ : Totals)
    (h₁ : recalculateInvoiceTotals db invoice = (db₁, t₁))
    (inv₁ : FBRInvoice) (h₂ : db₁.getInvoice invoice.id = some inv₁) :
    recalculateInvoiceTotals db₁ inv₁ = (db₁, t₁) := by
  simp only [recalculateInvoiceTotals] at h₁
  rw [Prod.mk.injEq] at h₁
  obtain ⟨hdb, ht⟩ := h₁
  subst hdb; subst ht
  rw [DB.getInvoice_setInvoice_self _ _ _ rfl] at h₂
  cases hg : db.getInvoice invoice.id with
  | none => rw [hg] at h₂; cases h₂
  | some x =>
    rw [hg] at h₂
    simp only [Option.map_some'] at h₂
    injection h₂ with h₂
    subst h₂
    simp only [recalculateInvoiceTotals, DB.itemsOf_setInvoice]
    rw [Prod.mk.injEq]
    exact ⟨DB.setInvoice_setInvoice db _, rfl⟩

/-- C8 witness: on the concrete draft store the recompute reproduces
the stored totals and is a fixed point. -/
theorem C8_recalc_idempotent_witness :
    recalculateInvoiceTotals exDB exInvoiceDraft = (exDB, ⟨200, 34, 234⟩) ∧
    exDB.getInvoice exInvoiceDraft.id = some exInvoiceDraft ∧
    recalculateInvoiceTotals exDB exInvoiceDraft = (exDB, ⟨200, 34, 234⟩) :=
  ⟨by simp [recalculateInvoiceTotals, pySum, DB.itemsOf, DB.setInvoice, exDB, exItem,
        exInvoiceDraft],
   rfl,
   C8_recalc_idempotent exDB exInvoiceDraft exDB ⟨200, 34, 234⟩
     (by simp [recalculateInvoiceTotals, pySum, DB.itemsOf, DB.setInvoice, exDB, exItem,
           exInvoiceDraft])
     exInvoiceDraft rfl⟩


/-- C2: on an invoice whose status is `"submitted"` or `"posted"`,
update, delete and add-item are all rejected with the business-rule
error; since the handlers raise before touching the session, an error
outcome produces no successor store, so the invoice and its items are
unchanged. -/
theorem C2_immutable_after_submission (db : DB) (u iid : Id) (inv : FBRInvoice)
    (hget : db.getInvoice iid = some inv) (hown : inv.owner_id = u)
    (hs : inv.status = "submitted" ∨ inv.status = "posted") :
    (∀ invoice_in, update_fbr_invoice db u iid invoice_in =
      Except.error { status_code := 400,
                     detail := "Cannot update submitted or posted invoices" }) ∧
    delete_fbr_invoice db u iid =
      Except.error { status_code := 400,
                     detail := "Cannot delete submitted or posted invoices" } ∧
    (∀ nid item_in, add_invoice_item db u iid nid item_in =
      Except.error { status_code := 400,
                     detail := "Cannot modify submitted or posted invoices" }) := by
  refine ⟨fun invoice_in => ?_, ?_, fun nid item_in => ?_⟩ <;>
    rcases hs with hs | hs <;>
      simp [update_fbr_invoice, delete_fbr_invoice, add_invoice_item, hget, hown, hs]

/-- C2 witness: the concrete submitted invoice rejects all three
mutations. -/
theorem C2_immutable_after_submission_witness :
    exDBsub.getInvoice 5 = some exInvoiceSubmitted ∧
    exInvoiceSubmitted.owner_id = 7 ∧
    exInvoiceSubmitted.status = "submitted" ∧
    update_fbr_invoice exDBsub 7 5 {} =
      Except.error { status_code := 400,
                     detail := "Cannot update submitted or posted invoices" } ∧
    delete_fbr_invoice exDBsub 7 5 =
      Except.error { status_code := 400,
                     detail := "Cannot delete submitted or posted invoices" } ∧
    add_invoice_item exDBsub 7 5 21 exItemIn =
      Except.error { status_code := 400,
                     detail := "Cannot modify submitted or posted invoices" } := by
  have h := C2_immutable_after_submission exDBsub 7 5 exInvoiceSubmitted rfl rfl (Or.inl rfl)
  exact ⟨rfl, rfl, rfl, h.1 {}, h.2.1, h.2.2 21 exItemIn⟩

/-- C4: `submit-to-fbr` on an existing, owned invoice succeeds exactly
when the status is `"draft"`; on success it persists
`status = "submitted"` together with the newly assigned
`fbr_reference = "FBR-" ++ invoice_ref_no`; otherwise it is rejected
with the business-rule error (and, erroring, changes nothing). -/
theorem C4_submit_iff_draft (db : DB) (u iid : Id) (inv : FBRInvoice)
    (hget : db.getInvoice iid = some inv) (hown : inv.owner_id = u) :
    ((∃ r, submit_to_fbr db u iid = Except.ok r) ↔ inv.status = "draft") ∧
    (inv.status = "draft" →
      submit_to_fbr db u iid = Except.ok
        (db.setInvoice { inv with
            status := "submitted",
            fbr_reference := some ("FBR-" ++ inv.invoice_ref_no) },
         { message := "Invoice submitted to FBR successfully",
           fbr_reference := "FBR-" ++ inv.invoice_ref_no,
           status := "submitted" }) ∧
      (db.setInvoice { inv with
          status := "submitted",
          fbr_reference := some ("FBR-" ++ inv.invoice_ref_no) }).getInvoice iid =
        some { inv with
          status := "submitted",
          fbr_reference := some ("FBR-" ++ inv.invoice_ref_no) }) ∧
    (inv.status ≠ "draft" →
      submit_to_fbr db u iid =
        Except.error { status_code := 400,
                       detail := "Only draft invoices can be submitted" }) := by
  have hid : inv.id = iid := DB.getInvoice_id hget
  by_cases hd : inv.status = "draft"
  · have hsucc : submit_to_fbr db u iid = Except.ok
        (db.setInvoice { inv with
            status := "submitted",
            fbr_reference := some ("FBR-" ++ inv.invoice_ref_no) },
         { message := "Invoice submitted to FBR successfully",
           fbr_reference := "FBR-" ++ inv.invoice_ref_no,
           status := "submitted" }) := by
      simp [submit_to_fbr, hget, hown, hd]
    refine ⟨⟨fun _ => hd, fun _ => ⟨_, hsucc⟩⟩,
      fun _ => ⟨hsucc, ?_⟩, fun hnd => absurd hd hnd⟩
    rw [DB.getInvoice_setInvoice_self _ _ _ (by simpa using hid), hget]
    rfl
  · refine ⟨⟨fun hr => ?_, fun hdd => absurd hdd hd⟩,
      fun hdd => absurd hdd hd, fun _ => ?_⟩
    · obtain ⟨r, hr⟩ := hr
      simp [submit_to_fbr, hget, hown, hd] at hr
    · simp [submit_to_fbr, hget, hown, hd]

/-- C4 witness: the concrete draft invoice submits successfully and
stores the submitted row with its reference. -/
theorem C4_submit_iff_draft_witness :
    exDB.getInvoice 5 = some exInvoiceDraft ∧
    exInvoiceDraft.owner_id = 7 ∧
    exInvoiceDraft.status = "draft" ∧
    submit_to_fbr exDB 7 5 = Except.ok
      (exDB.setInvoice exInvoiceSubmitted,
       { message := "Invoice submitted to FBR successfully",
         fbr_reference := "FBR-INV-1", status := "submitted" }) := by
  have h := (C4_submit_iff_draft exDB 7 5 exInvoiceDraft rfl rfl).2.1 rfl
  exact ⟨rfl, rfl, rfl, h.1⟩

/-- C10: `calculate-totals` has no status guard — for any existing,
owned invoice, whatever its status, it succeeds and overwrites the
three stored totals with the sums over the current items. -/
theorem C10_calculate_totals_ungated (db : DB) (u iid : Id) (inv : FBRInvoice)
    (hget : db.getInvoice iid = some inv) (hown : inv.owner_id = u) :
    calculate_invoice_totals db u iid =
      Except.ok (recalculateInvoiceTotals db inv) ∧
    ((recalculateInvoiceTotals db inv).1).getInvoice iid =
      some { inv with
        total_sales_value := ((db.itemsOf inv.id).map (·.value_sales_excluding_st)).sum,
        total_tax_amount := ((db.itemsOf inv.id).map (·.sales_tax_applicable)).sum,
        total_invoice_value := ((db.itemsOf inv.id).map (·.total_value)).sum } := by
  have hid : inv.id = iid := DB.getInvoice_id hget
  constructor
  · simp [calculate_invoice_totals, hget, hown]
  · simp only [recalculateInvoiceTotals]
    rw [DB.getInvoice_setInvoice_self _ _ _ (by simpa using hid), hget]
    simp [pySum_eq_sum]

/-- A recompute keyed on another invoice leaves a lookup untouched. -/
theorem recalc_getInvoice_ne (db : DB) (invoice : FBRInvoice) (i : Id)
    (hne : invoice.id ≠ i) :
    ((recalculateInvoiceTotals db invoice).1).getInvoice i = db.getInvoice i := by
  simp only [recalculateInvoiceTotals]
  exact DB.getInvoice_setInvoice_ne _ _ _ hne

/-- One public operation can never turn a `"submitted"` invoice into
anything else: update/delete/add-item refuse it, calculate-totals only
rewrites the three totals, submit requires `"draft"`, and create only
appends a new row. -/
theorem step_preserves_submitted {db db' : DB} (hstep : Step db db') (i : Id)
    (inv : FBRInvoice) (hget : db.getInvoice i = some inv)
    (hs : inv.status = "submitted") :
    ∃ inv', db'.getInvoice i = some inv' ∧ inv'.status = "submitted" := by
  cases hstep with
  | create h =>
    obtain ⟨-, -, -, hdb⟩ := create_fbr_invoice_ok_inv h
    subst hdb
    exact ⟨inv, find?_append_of_some db.invoices _ _ inv hget, hs⟩
  | update h =>
    rename_i u iid inp rres
    obtain ⟨inv₀, hg₀, ho₀, hst₀, -, hdb⟩ := update_fbr_invoice_ok_inv h
    subst hdb
    by_cases hii : iid = i
    · subst hii
      injection (hget.symm.trans hg₀) with he
      exact absurd (Or.inl (he ▸ hs)) hst₀
    · have hne : (inv₀.sqlmodel_update inp).id ≠ i := by
        rw [sqlmodel_update_id, DB.getInvoice_id hg₀]
        exact hii
      rw [DB.getInvoice_setInvoice_ne _ _ _ hne]
      exact ⟨inv, hget, hs⟩
  | del h =>
    rename_i u iid m
    obtain ⟨inv₀, hg₀, ho₀, hst₀, hdb⟩ := delete_fbr_invoice_ok_inv h
    subst hdb
    by_cases hii : iid = i
    · subst hii
      injection (hget.symm.trans hg₀) with he
      exact absurd (Or.inl (he ▸ hs)) hst₀
    · refine ⟨inv, ?_, hs⟩
      exact (find?_filter_ne db.invoices iid i (fun hh => hii hh.symm)).trans hget
  | addItem h =>
    rename_i u iid nid inp rr
    obtain ⟨inv₀, hg₀, ho₀, hst₀, hp, -, hdb⟩ := add_invoice_item_ok_inv h
    subst hdb
    by_cases hii : iid = i
    · subst hii
      injection (hget.symm.trans hg₀) with he
      exact absurd (Or.inl (he ▸ hs)) hst₀
    · refine ⟨inv, ?_, hs⟩
      rw [recalc_getInvoice_ne]
      · exact hget
      · rw [DB.getInvoice_id hg₀]; exact hii
  | calcTotals h =>
    rename_i u iid t
    obtain ⟨inv₀, hg₀, ho₀, hrec⟩ := calculate_invoice_totals_ok_inv h
    have hdb : (recalculateInvoiceTotals db inv₀).1 = db' := congrArg Prod.fst hrec
    by_cases hii : iid = i
    · subst hii
      injection (hget.symm.trans hg₀) with he
      subst he
      have hid : inv.id = iid := DB.getInvoice_id hget
      subst hid
      rw [← hdb]
      simp only [recalculateInvoiceTotals]
      rw [DB.getInvoice_setInvoice_self _ _ _ rfl, hget]
      exact ⟨_, rfl, hs⟩
    · refine ⟨inv, ?_, hs⟩
      rw [← hdb, recalc_getInvoice_ne]
      · exact hget
      · rw [DB.getInvoice_id hg₀]; exact hii
  | submit h =>
    rename_i u iid r
    obtain ⟨inv₀, hg₀, ho₀, hst₀, hdb⟩ := submit_to_fbr_ok_inv h
    subst hdb
    by_cases hii : iid = i
    · subst hii
      injection (hget.symm.trans hg₀) with he
      rw [← he] at hst₀
      exact absurd (hs.symm.trans hst₀) (by decide)
    · have hne : ({ inv₀ with
          status := "submitted",
          fbr_reference := some ("FBR-" ++ inv₀.invoice_ref_no) } : FBRInvoice).id ≠ i := by
        show inv₀.id ≠ i
        rw [DB.getInvoice_id hg₀]
        exact hii
      rw [DB.getInvoice_setInvoice_ne _ _ _ hne]
      exact ⟨inv, hget, hs⟩

/-- C9: once an invoice is `"submitted"`, no sequence of public
operations of this core can return it to `"draft"` — update cannot
write the status field and submit only moves `"draft"` to
`"submitted"`, so the status stays `"submitted"` along every reachable
successor state. -/
theorem C9_submitted_never_draft (db db' : DB) (h : Reachable db db') (i : Id)
    (inv : FBRInvoice) (hget : db.getInvoice i = some inv)
    (hs : inv.status = "submitted") :
    ∀ inv', db'.getInvoice i = some inv' → inv'.status ≠ "draft" := by
  have h' : Relation.ReflTransGen Step db db' := h
  clear h
  have key : ∃ invm, db'.getInvoice i = some invm ∧ invm.status = "submitted" := by
    induction h' with
    | refl => exact ⟨inv, hget, hs⟩
    | tail hab hbc ih =>
      obtain ⟨m, hm, hms⟩ := ih
      exact step_preserves_submitted hbc i m hm hms
  obtain ⟨m, hm, hms⟩ := key
  intro inv' hinv'
  rw [hm] at hinv'
  injection hinv' with hinv'
  rw [← hinv', hms]
  decide

/-- C9 witness: the concrete submitted store is reachable from itself
and its invoice's status is not `"draft"`. -/
theorem C9_submitted_never_draft_witness :
    exDBsub.getInvoice 5 = some exInvoiceSubmitted ∧
    exInvoiceSubmitted.status = "submitted" ∧
    exInvoiceSubmitted.status ≠ "draft" :=
  ⟨rfl, rfl,
   C9_submitted_never_draft exDBsub exDBsub Relation.ReflTransGen.refl 5
     exInvoiceSubmitted rfl rfl exInvoiceSubmitted rfl⟩

/-- C10 witness: the recompute endpoint succeeds on the concrete
invoice even though its status is `"submitted"`. -/
theorem C10_calculate_totals_ungated_witness :
    exDBsub.getInvoice 5 = some exInvoiceSubmitted ∧
    exInvoiceSubmitted.status = "submitted" ∧
    calculate_invoice_totals exDBsub 7 5 =
      Except.ok (recalculateInvoiceTotals exDBsub exInvoiceSubmitted) :=
  ⟨rfl, rfl, (C10_calculate_totals_ungated exDBsub 7 5 exInvoiceSubmitted rfl rfl).1⟩

/-- C3 counterexample: the Σ-equalities are not preserved by every
public operation — from a store satisfying them, `create_fbr_invoice`
accepts caller-supplied totals unchecked against the (empty) item set
and reaches a store violating them. -/
theorem C3_totals_invariant_counterexample :
    TotalsInvariant exDBpre ∧
    create_fbr_invoice exDBpre 7 10 exCreateUnbalanced =
      Except.ok (exDBpost, exInvUnbalanced) ∧
    Step exDBpre exDBpost ∧
    ¬ TotalsInvariant exDBpost := by
  have hcreate : create_fbr_invoice exDBpre 7 10 exCreateUnbalanced =
      Except.ok (exDBpost, exInvUnbalanced) := rfl
  refine ⟨?_, hcreate,
    @Step.create exDBpre 7 10 exCreateUnbalanced exDBpost exInvUnbalanced hcreate, ?_⟩
  · intro inv hmem
    simp [exDBpre] at hmem
  · intro hTI
    have h1 := (hTI exInvUnbalanced (by simp [exDBpost])).1
    norm_num [exInvUnbalanced, exDBpost, exDBpre, DB.itemsOf,
      exCreateUnbalanced, FBRInvoiceCreate.model_validate] at h1

/-- C3 amended: the Σ-equalities are established for the target invoice
by every operation that runs the recompute (add-item and
calculate-totals); they are not an invariant of create/update, which
store caller-supplied totals without checking them against the items. -/
theorem C3_totals_invariant_amended :
    (∀ (db : DB) (u iid : Id) (db' : DB) (t : Totals),
      calculate_invoice_totals db u iid = Except.ok (db', t) →
      ∀ inv', db'.getInvoice iid = some inv' → invoiceTotalsOk db' inv') ∧
    (∀ (db : DB) (u iid nid : Id) (item_in : FBRInvoiceItemCreate) (db' : DB) (r : Id),
      add_invoice_item db u iid nid item_in = Except.ok (db', r) →
      ∀ inv', db'.getInvoice iid = some inv' → invoiceTotalsOk db' inv') := by
  constructor
  · intro db u iid db' t h inv' hg'
    obtain ⟨inv, hg, ho, hrec⟩ := calculate_invoice_totals_ok_inv h
    have hdb : (recalculateInvoiceTotals db inv).1 = db' := congrArg Prod.fst hrec
    subst hdb
    have hid : inv.id = iid := DB.getInvoice_id hg
    subst hid
    exact recalc_establishes db inv inv' hg'
  · intro db u iid nid item_in db' r h inv' hg'
    obtain ⟨inv, hg, ho, hst, hp, hr, hdb⟩ := add_invoice_item_ok_inv h
    subst hdb
    have hid : inv.id = iid := DB.getInvoice_id hg
    subst hid
    exact recalc_establishes _ inv inv' hg'

/-- C3 amended witness: the recompute endpoint leaves the concrete
store in a state satisfying the Σ-equalities. -/
theorem C3_totals_invariant_amended_witness :
    calculate_invoice_totals exDB 7 5 = Except.ok (exDB, ⟨200, 34, 234⟩) ∧
    exDB.getInvoice 5 = some exInvoiceDraft ∧
    invoiceTotalsOk exDB exInvoiceDraft := by
  have hcalc : calculate_invoice_totals exDB 7 5 = Except.ok (exDB, ⟨200, 34, 234⟩) := by
    simp [calculate_invoice_totals, DB.getInvoice, exDB, exInvoiceDraft,
      recalculateInvoiceTotals, pySum, DB.itemsOf, DB.setInvoice, exItem]
  exact ⟨hcalc, rfl,
    C3_totals_invariant_amended.1 exDB 7 5 exDB ⟨200, 34, 234⟩ hcalc exInvoiceDraft rfl⟩

/-- Inversion of a successful `get_fbr_json`: the emitted document is
exactly the literal compliance object for the stored invoice and its
items in persisted order. -/
theorem get_fbr_json_ok_inv {db : DB} {u iid : Id} {j : Json}
    (h : get_fbr_json db u iid = Except.ok j) :
    ∃ inv, db.getInvoice iid = some inv ∧ inv.owner_id = u ∧
      j = Json.obj [
        ("InvoiceRefNo", Json.str inv.invoice_ref_no),
        ("InvoiceDate", Json.str inv.invoice_date),
        ("InvoiceType", Json.str inv.invoice_type),
        ("ScenarioId", jsonOfOptStr inv.scenario_id),
        ("SellerNTNCNIC", Json.str inv.seller_ntn_cnic),
        ("SellerBusinessName", Json.str inv.seller_business_name),
        ("SellerProvince", Json.str inv.seller_province),
        ("SellerAddress", Json.str inv.seller_address),
        ("BuyerNTNCNIC", Json.str inv.buyer_ntn_cnic),
        ("BuyerBusinessName", Json.str inv.buyer_business_name),
        ("BuyerProvince", Json.str inv.buyer_province),
        ("BuyerAddress", Json.str inv.buyer_address),
        ("BuyerRegistrationType", Json.str inv.buyer_registration_type),
        ("TotalSalesValue", Json.num inv.total_sales_value),
        ("TotalTaxAmount", Json.num inv.total_tax_amount),
        ("TotalInvoiceValue", Json.num inv.total_invoice_value),
        ("Items", Json.arr ((db.itemsOf iid).map itemToFbrJson))] := by
  unfold get_fbr_json at h
  split at h
  · exact Except.noConfusion h
  · rename_i inv hg
    split at h
    · exact Except.noConfusion h
    · rename_i ho
      injection h with h
      exact ⟨inv, hg, not_not.mp ho, h.symm⟩

/-- C5: the emitted compliance document carries exactly the
case-sensitive schema field names, every numeric field as a floating
(`Json.num`) value, and every absent optional numeric source field as
`0` rather than omitted. -/
theorem C5_fbr_json_schema (db : DB) (u iid : Id) (j : Json)
    (h : get_fbr_json db u iid = Except.ok j) :
    j.keys = some fbrInvoiceKeys ∧
    (∃ q₁, j.lookupKey "TotalSalesValue" = some (Json.num q₁)) ∧
    (∃ q₂, j.lookupKey "TotalTaxAmount" = some (Json.num q₂)) ∧
    (∃ q₃, j.lookupKey "TotalInvoiceValue" = some (Json.num q₃)) ∧
    j.lookupKey "Items" = some (Json.arr ((db.itemsOf iid).map itemToFbrJson)) ∧
    (∀ item : FBRInvoiceItem,
      (itemToFbrJson item).keys = some fbrItemKeys ∧
      (∀ k ∈ fbrItemNumericKeys,
        ∃ q, (itemToFbrJson item).lookupKey k = some (Json.num q)) ∧
      (item.sales_tax_withheld_at_source = none →
        (itemToFbrJson item).lookupKey "SalesTaxWithheldAtSource" = some (Json.num 0)) ∧
      (item.extra_tax = none →
        (itemToFbrJson item).lookupKey "ExtraTax" = some (Json.num 0)) ∧
      (item.further_tax = none →
        (itemToFbrJson item).lookupKey "FurtherTax" = some (Json.num 0)) ∧
      (item.fed_payable = none →
        (itemToFbrJson item).lookupKey "FEDPayable" = some (Json.num 0)) ∧
      (item.fixed_notified_value = none →
        (itemToFbrJson item).lookupKey "FixedNotifiedValue" = some (Json.num 0)) ∧
      (item.discount = none →
        (itemToFbrJson item).lookupKey "Discount" = some (Json.num 0))) := by
  obtain ⟨inv, hg, ho, hj⟩ := get_fbr_json_ok_inv h
  subst hj
  refine ⟨rfl, ⟨_, rfl⟩, ⟨_, rfl⟩, ⟨_, rfl⟩, rfl, ?_⟩
  intro item
  refine ⟨rfl, ?_, ?_, ?_, ?_, ?_, ?_, ?_⟩
  · intro k hk
    simp only [fbrItemNumericKeys] at hk
    fin_cases hk <;> exact ⟨_, rfl⟩
  all_goals intro hnone
  all_goals simp only [itemToFbrJson, hnone]
  all_goals rfl

/-- C5 witness: the concrete document has exactly the schema keys and
emits the unset `Discount` as a floating `0`. -/
theorem C5_fbr_json_schema_witness :
    get_fbr_json exDB 7 5 = Except.ok exJson5 ∧
    exJson5.keys = some fbrInvoiceKeys ∧
    exItem.discount = none ∧
    (itemToFbrJson exItem).lookupKey "Discount" = some (Json.num 0) :=
  ⟨rfl, (C5_fbr_json_schema exDB 7 5 exJson5 rfl).1, rfl, rfl⟩

/-- C6: the `Items` array of the emitted document is exactly the
invoice's item rows in persistence order (the query has no `order_by`
and the builder maps over it without reordering), so it contains every
item of the invoice. -/
theorem C6_items_complete_ordered (db : DB) (u iid : Id) (j : Json)
    (h : get_fbr_json db u iid = Except.ok j) :
    j.lookupKey "Items" = some (Json.arr ((db.itemsOf iid).map itemToFbrJson)) ∧
    ∀ item ∈ db.items, item.invoice_id = iid →
      itemToFbrJson item ∈ (db.itemsOf iid).map itemToFbrJson := by
  obtain ⟨inv, hg, ho, hj⟩ := get_fbr_json_ok_inv h
  subst hj
  refine ⟨rfl, ?_⟩
  intro item hmem hiid
  exact List.mem_map_of_mem _ (List.mem_filter.mpr ⟨hmem, by simp [hiid]⟩)

/-- C6 witness: the concrete document's `Items` array is the mapped
item table of the invoice. -/
theorem C6_items_complete_ordered_witness :
    get_fbr_json exDB 7 5 = Except.ok exJson5 ∧
    exJson5.lookupKey "Items" =
      some (Json.arr ((exDB.itemsOf 5).map itemToFbrJson)) :=
  ⟨rfl, (C6_items_complete_ordered exDB 7 5 exJson5 rfl).1⟩

/-- C7: a create or add-item request whose referenced customer,
company or product is missing or owned by another principal fails with
the corresponding referential error; the check precedes every store
write, and an erroring handler produces no successor store. -/
theorem C7_referential_guard :
    (∀ (db : DB) (u nid : Id) (inp : FBRInvoiceCreate),
      customerValid db inp.customer_id u = false →
      create_fbr_invoice db u nid inp =
        Except.error { status_code := 400, detail := "Invalid customer" }) ∧
    (∀ (db : DB) (u nid : Id) (inp : FBRInvoiceCreate),
      customerValid db inp.customer_id u = true →
      companyValid db inp.company_id u = false →
      create_fbr_invoice db u nid inp =
        Except.error { status_code := 400, detail := "Invalid company" }) ∧
    (∀ (db : DB) (u iid nid : Id) (item_in : FBRInvoiceItemCreate) (inv : FBRInvoice),
      db.getInvoice iid = some inv → inv.owner_id = u →
      ¬(inv.status = "submitted" ∨ inv.status = "posted") →
      productValid db item_in.product_id u = false →
      add_invoice_item db u iid nid item_in =
        Except.error { status_code := 400, detail := "Invalid product" }) := by
  refine ⟨fun db u nid inp hc => ?_, fun db u nid inp hc hco => ?_,
    fun db u iid nid item_in inv hget hown hs hp => ?_⟩
  · simp [create_fbr_invoice, hc]
  · simp [create_fbr_invoice, hc, hco]
  · simp [add_invoice_item, hget, hown, hs, hp]

/-- C7 witness: referencing the nonexistent customer 99 makes create
fail with the referential error. -/
theorem C7_referential_guard_witness :
    customerValid exDB 99 7 = false ∧
    create_fbr_invoice exDB 7 30 exCreateBad =
      Except.error { status_code := 400, detail := "Invalid customer" } :=
  ⟨rfl, C7_referential_guard.1 exDB 7 30 exCreateBad rfl⟩

end FBRSpec


